import Mathlib

/-!
# Shallow embedding of syhlion/sqlwrapper (db.go)

The repository wraps a `database/sql` handle with timing + structured-log
instrumentation.  We embed the canonical variant (`db.go`, the
debug-OR-threshold gating) faithfully:

* `time.Duration` is an `Int` (Go's `time.Duration` is an `int64` count of
  nanoseconds).  Go's monotonic clock guarantees `et.Sub(st) ≥ 0`; where a
  claim needs this, it appears as an explicit hypothesis `0 ≤ elapsed`.
* The wrapped objects (`*sql.DB`, `*sql.Tx`, `*sql.Stmt`), the opaque call
  results (`sql.Result`, `*sql.Rows`, `*sql.Row`, `error` for pass-through
  calls) and the `[]interface{}` argument values are type parameters
  `δ τ σ ρ ε α`: the wrapper never inspects them, it only forwards them.
* Each underlying client method the wrapper invokes is passed in as an
  explicit oracle function (`und`); the wrapper calls it on the stored
  handle and the caller's unmodified arguments.
* Each instrumented method returns, next to the pass-through result, the
  list of log records it emits during the call (the body of the Go
  `defer`-ed closure).  The Go code formats the duration with
  `total.String()`; the embedding keeps the numeric duration in the
  `useTime` field, the information content is identical.
* The package-global `ip` (set once in `init` from `getExternalIP`) is a
  parameter to every method that logs it.
-/

namespace Sqlwrapper

/-- Go `time.Duration`: an `int64` nanosecond count. -/
abbrev Duration := Int

/-- One structured log record as emitted by `log.WithFields(...).Debug(msg)`
in db.go.  `sql`/`args` are `Option` because `Commit`/`Rollback` records
carry neither field. -/
structure LogRecord (α : Type) where
  useTime : Duration
  ip : String
  name : String
  sql : Option String
  args : Option (List α)
  msg : String
deriving DecidableEq, Repr

/-- `type DB struct { db *sql.DB; slow time.Duration; debug bool }` -/
structure DB (δ : Type) where
  db : δ
  slow : Duration
  debug : Bool
deriving DecidableEq, Repr

/-- `type Tx struct { tx *sql.Tx; debug bool; slow time.Duration }` -/
structure Tx (τ : Type) where
  tx : τ
  debug : Bool
  slow : Duration
deriving DecidableEq, Repr

/-- `type Stmt struct { stmt *sql.Stmt; prepare string; debug bool; slow time.Duration }` -/
structure Stmt (σ : Type) where
  stmt : σ
  prepare : String
  debug : Bool
  slow : Duration
deriving DecidableEq, Repr

/-- `func WrapperDB(db *sql.DB, debug bool, slow time.Duration) (d *DB)` -/
def WrapperDB {δ : Type} (db : δ) (debug : Bool) (slow : Duration) : DB δ :=
  { db := db, slow := slow, debug := debug }

/-- The gating condition of every `defer`-ed block in db.go:
`if X.debug || total >= X.slow`. -/
def gate (debug : Bool) (slow total : Duration) : Bool :=
  debug || decide (slow ≤ total)

/-- `func (d *DB) Exec(query string, args ...interface{}) (sql.Result, error)`.
`und` is `(*sql.DB).Exec`; `elapsed` is `et.Sub(st)`.  Returns the
pass-through result and the emitted log records. -/
def DB.Exec {δ ρ α : Type} (d : DB δ) (ip : String) (query : String)
    (args : List α) (und : δ → String → List α → ρ) (elapsed : Duration) :
    ρ × List (LogRecord α) :=
  (und d.db query args,
    if gate d.debug d.slow elapsed then
      [{ useTime := elapsed, ip := ip, name := "syhlion/sqlwrapper",
         sql := some query, args := some args, msg := "db exec" }]
    else [])

/-- `func (d *DB) Query(query string, args ...interface{}) (*sql.Rows, error)`. -/
def DB.Query {δ ρ α : Type} (d : DB δ) (ip : String) (query : String)
    (args : List α) (und : δ → String → List α → ρ) (elapsed : Duration) :
    ρ × List (LogRecord α) :=
  (und d.db query args,
    if gate d.debug d.slow elapsed then
      [{ useTime := elapsed, ip := ip, name := "syhlion/sqlwrapper",
         sql := some query, args := some args, msg := "db query" }]
    else [])

/-- `func (d *DB) QueryRow(query string, args ...interface{}) *sql.Row`. -/
def DB.QueryRow {δ ρ α : Type} (d : DB δ) (ip : String) (query : String)
    (args : List α) (und : δ → String → List α → ρ) (elapsed : Duration) :
    ρ × List (LogRecord α) :=
  (und d.db query args,
    if gate d.debug d.slow elapsed then
      [{ useTime := elapsed, ip := ip, name := "syhlion/sqlwrapper",
         sql := some query, args := some args, msg := "db query row" }]
    else [])

/-- `func (d *DB) Close() error`: `return d.db.Close()` — pure delegation,
no timing, no log. -/
def DB.Close {δ ρ α : Type} (d : DB δ) (und : δ → ρ) :
    ρ × List (LogRecord α) :=
  (und d.db, [])

/-- `func (d *DB) Begin() (t *Tx, err error)`: on `err != nil` the named
returns are `(nil, err)`; otherwise a `Tx` carrying `d.debug` and `d.slow`
is built.  No log is emitted on either path. -/
def DB.Begin {δ τ ε α : Type} (d : DB δ) (und : δ → τ × Option ε) :
    Option (Tx τ) × Option ε × List (LogRecord α) :=
  match und d.db with
  | (_, some e) => (none, some e, [])
  | (tx, none) => (some { tx := tx, debug := d.debug, slow := d.slow }, none, [])

/-- `func (d *DB) Prepare(query string) (*Stmt, error)`: on error returns
`(nil, err)`; on success builds the `Stmt` wrapper storing the query text
and `d`'s configuration.  No log is emitted on either path. -/
def DB.Prepare {δ σ ε α : Type} (d : DB δ) (query : String)
    (und : δ → String → σ × Option ε) :
    Option (Stmt σ) × Option ε × List (LogRecord α) :=
  match und d.db query with
  | (_, some e) => (none, some e, [])
  | (s, none) =>
      (some { stmt := s, prepare := query, debug := d.debug, slow := d.slow },
       none, [])

/-- `func (t *Tx) Commit() error`.  The record has no `sql`/`args` fields. -/
def Tx.Commit {τ ρ α : Type} (t : Tx τ) (ip : String) (und : τ → ρ)
    (elapsed : Duration) : ρ × List (LogRecord α) :=
  (und t.tx,
    if gate t.debug t.slow elapsed then
      [{ useTime := elapsed, ip := ip, name := "syhlion/sqlwrapper",
         sql := none, args := none, msg := "tx commit" }]
    else [])

/-- `func (t *Tx) Rollback() error`.  The record has no `sql`/`args` fields. -/
def Tx.Rollback {τ ρ α : Type} (t : Tx τ) (ip : String) (und : τ → ρ)
    (elapsed : Duration) : ρ × List (LogRecord α) :=
  (und t.tx,
    if gate t.debug t.slow elapsed then
      [{ useTime := elapsed, ip := ip, name := "syhlion/sqlwrapper",
         sql := none, args := none, msg := "tx rollback" }]
    else [])

/-- `func (t *Tx) Exec(query string, args ...interface{}) (sql.Result, error)`. -/
def Tx.Exec {τ ρ α : Type} (t : Tx τ) (ip : String) (query : String)
    (args : List α) (und : τ → String → List α → ρ) (elapsed : Duration) :
    ρ × List (LogRecord α) :=
  (und t.tx query args,
    if gate t.debug t.slow elapsed then
      [{ useTime := elapsed, ip := ip, name := "syhlion/sqlwrapper",
         sql := some query, args := some args, msg := "tx exec" }]
    else [])

/-- `func (t *Tx) Query(query string, args ...interface{}) (*sql.Rows, error)`. -/
def Tx.Query {τ ρ α : Type} (t : Tx τ) (ip : String) (query : String)
    (args : List α) (und : τ → String → List α → ρ) (elapsed : Duration) :
    ρ × List (LogRecord α) :=
  (und t.tx query args,
    if gate t.debug t.slow elapsed then
      [{ useTime := elapsed, ip := ip, name := "syhlion/sqlwrapper",
         sql := some query, args := some args, msg := "tx query" }]
    else [])

/-- `func (t *Tx) QueryRow(query string, args ...interface{}) *sql.Row`. -/
def Tx.QueryRow {τ ρ α : Type} (t : Tx τ) (ip : String) (query : String)
    (args : List α) (und : τ → String → List α → ρ) (elapsed : Duration) :
    ρ × List (LogRecord α) :=
  (und t.tx query args,
    if gate t.debug t.slow elapsed then
      [{ useTime := elapsed, ip := ip, name := "syhlion/sqlwrapper",
         sql := some query, args := some args, msg := "tx query row" }]
    else [])

/-- `func (t *Tx) Prepare(query string) (*Stmt, error)`: like `DB.Prepare`
but inheriting `t`'s configuration.  No log on either path. -/
def Tx.Prepare {τ σ ε α : Type} (t : Tx τ) (query : String)
    (und : τ → String → σ × Option ε) :
    Option (Stmt σ) × Option ε × List (LogRecord α) :=
  match und t.tx query with
  | (_, some e) => (none, some e, [])
  | (s, none) =>
      (some { stmt := s, prepare := query, debug := t.debug, slow := t.slow },
       none, [])

/-- `func (t *Tx) Stmt(stmt *Stmt) *Stmt`: rebinds `stmt.stmt` to the
transaction-bound statement `t.tx.Stmt(stmt.stmt)` in place and returns the
same wrapper.  The in-place mutation is embedded as state passing: the
returned `Stmt` is the updated value of the input wrapper.  No timing, no log. -/
def Tx.Stmt {τ σ α : Type} (t : Tx τ) (stmt : Stmt σ) (und : τ → σ → σ) :
    Stmt σ × List (LogRecord α) :=
  ({ stmt with stmt := und t.tx stmt.stmt }, [])

/-- `func (s *Stmt) Exec(args ...interface{}) (sql.Result, error)`.
The record's `sql` field is the stored `s.prepare` text; the Go message
string is `"stmt query row"` (as written in the source). -/
def Stmt.Exec {σ ρ α : Type} (s : Stmt σ) (ip : String) (args : List α)
    (und : σ → List α → ρ) (elapsed : Duration) : ρ × List (LogRecord α) :=
  (und s.stmt args,
    if gate s.debug s.slow elapsed then
      [{ useTime := elapsed, ip := ip, name := "syhlion/sqlwrapper",
         sql := some s.prepare, args := some args, msg := "stmt query row" }]
    else [])

/-- `func (s *Stmt) Query(args ...interface{}) (*sql.Rows, error)`. -/
def Stmt.Query {σ ρ α : Type} (s : Stmt σ) (ip : String) (args : List α)
    (und : σ → List α → ρ) (elapsed : Duration) : ρ × List (LogRecord α) :=
  (und s.stmt args,
    if gate s.debug s.slow elapsed then
      [{ useTime := elapsed, ip := ip, name := "syhlion/sqlwrapper",
         sql := some s.prepare, args := some args, msg := "stmt query" }]
    else [])

/-- `func (s *Stmt) QueryRow(args ...interface{}) *sql.Row`. -/
def Stmt.QueryRow {σ ρ α : Type} (s : Stmt σ) (ip : String) (args : List α)
    (und : σ → List α → ρ) (elapsed : Duration) : ρ × List (LogRecord α) :=
  (und s.stmt args,
    if gate s.debug s.slow elapsed then
      [{ useTime := elapsed, ip := ip, name := "syhlion/sqlwrapper",
         sql := some s.prepare, args := some args, msg := "stmt query row" }]
    else [])

/-- `func (s *Stmt) Close() error`: pure delegation. -/
def Stmt.Close {σ ρ α : Type} (s : Stmt σ) (und : σ → ρ) :
    ρ × List (LogRecord α) :=
  (und s.stmt, [])

/-! ## Helper lemmas shared by the claim theorems -/

/-- The `defer`-ed block emits one record when the gate holds, none otherwise. -/
theorem emit_length {α : Type} {c : Prop} [Decidable c] {rec : LogRecord α} :
    (if c then [rec] else []).length = if c then 1 else 0 := by
  by_cases h : c <;> simp [h]

/-- Any member of an emitted-record list is the one gated record. -/
theorem mem_emit {α : Type} {c : Prop} [Decidable c] {r rec : LogRecord α}
    (hr : r ∈ (if c then [rec] else [])) : r = rec := by
  split at hr
  · simpa using hr
  · simp at hr

/-! ## Claim theorems -/

/-- C1: every instrumented operation (`Exec`/`Query`/`QueryRow` on `DB`, `Tx`
and `Stmt`, and `Commit`/`Rollback` on `Tx`) emits exactly one log record iff
the component's debug flag is true or the elapsed duration is at least its
slow threshold; with `debug = false` and `slow = 0` every call (elapsed
non-negative) passes the gate, and with a threshold strictly above the
elapsed time (the `+infinity` reading) no call does. -/
theorem claim1_log_gating {δ τ σ ρ α : Type} (d : DB δ) (t : Tx τ) (s : Stmt σ)
    (ip query : String) (args : List α)
    (undD : δ → String → List α → ρ) (undT : τ → String → List α → ρ)
    (undS : σ → List α → ρ) (undTC undTR : τ → ρ)
    (dbg : Bool) (slw elapsed : Duration) :
    ((DB.Exec d ip query args undD elapsed).2.length
        = if gate d.debug d.slow elapsed then 1 else 0)
    ∧ ((DB.Query d ip query args undD elapsed).2.length
        = if gate d.debug d.slow elapsed then 1 else 0)
    ∧ ((DB.QueryRow d ip query args undD elapsed).2.length
        = if gate d.debug d.slow elapsed then 1 else 0)
    ∧ ((Tx.Exec t ip query args undT elapsed).2.length
        = if gate t.debug t.slow elapsed then 1 else 0)
    ∧ ((Tx.Query t ip query args undT elapsed).2.length
        = if gate t.debug t.slow elapsed then 1 else 0)
    ∧ ((Tx.QueryRow t ip query args undT elapsed).2.length
        = if gate t.debug t.slow elapsed then 1 else 0)
    ∧ ((Tx.Commit (α := α) t ip undTC elapsed).2.length
        = if gate t.debug t.slow elapsed then 1 else 0)
    ∧ ((Tx.Rollback (α := α) t ip undTR elapsed).2.length
        = if gate t.debug t.slow elapsed then 1 else 0)
    ∧ ((Stmt.Exec s ip args undS elapsed).2.length
        = if gate s.debug s.slow elapsed then 1 else 0)
    ∧ ((Stmt.Query s ip args undS elapsed).2.length
        = if gate s.debug s.slow elapsed then 1 else 0)
    ∧ ((Stmt.QueryRow s ip args undS elapsed).2.length
        = if gate s.debug s.slow elapsed then 1 else 0)
    ∧ (gate dbg slw elapsed = true ↔ dbg = true ∨ slw ≤ elapsed)
    ∧ (dbg = false → slw = 0 → 0 ≤ elapsed → gate dbg slw elapsed = true)
    ∧ (dbg = false → elapsed < slw → gate dbg slw elapsed = false) := by
  refine ⟨emit_length, emit_length, emit_length, emit_length, emit_length,
    emit_length, emit_length, emit_length, emit_length, emit_length,
    emit_length, ?_, ?_, ?_⟩
  · simp [gate, Bool.or_eq_true, decide_eq_true_eq]
  · intro hd hs he
    subst hd; subst hs
    simp [gate, he]
  · intro hd hl
    subst hd
    simp [gate]
    exact hl

/-- C1 witness: a concrete debug-enabled handle logs exactly once. -/
theorem claim1_log_gating_witness :
    (DB.Exec (WrapperDB (0 : Nat) true 5) "203.0.113.7" "select 1" [(1 : Nat)]
        (fun _ _ _ => (0 : Nat)) 3).2.length
      = if gate true 5 3 then 1 else 0 :=
  (claim1_log_gating (WrapperDB (0 : Nat) true 5) (⟨0, true, 5⟩ : Tx Nat)
    (⟨0, "select 1", true, 5⟩ : Stmt Nat) "203.0.113.7" "select 1" [(1 : Nat)]
    (fun _ _ _ => (0 : Nat)) (fun _ _ _ => (0 : Nat)) (fun _ _ => (0 : Nat))
    (fun _ => (0 : Nat)) (fun _ => (0 : Nat)) true 5 3).1

/-- C2: `DB.Exec`, `DB.Query` and `DB.QueryRow` return exactly what the
underlying client returns when invoked on the stored handle with the very
same query string and argument list (the embedding passes `query` and
`args` through unchanged). -/
theorem claim2_passthrough {δ ρ α : Type} (d : DB δ) (ip query : String)
    (args : List α) (und : δ → String → List α → ρ) (elapsed : Duration) :
    (DB.Exec d ip query args und elapsed).1 = und d.db query args
    ∧ (DB.Query d ip query args und elapsed).1 = und d.db query args
    ∧ (DB.QueryRow d ip query args und elapsed).1 = und d.db query args :=
  ⟨rfl, rfl, rfl⟩

/-- C3: when the underlying `Query` returns a non-nil error, `DB.Query`
surfaces exactly that `(rows, error)` pair unchanged, still emits its log
record per the usual gate, and what it logs does not depend on the
underlying outcome at all. -/
theorem claim3_error_surfaced {δ ρr ε α : Type} (d : DB δ) (ip query : String)
    (args : List α) (und : δ → String → List α → ρr × Option ε)
    (elapsed : Duration) (rows : ρr) (e : ε)
    (h : und d.db query args = (rows, some e)) :
    (DB.Query d ip query args und elapsed).1 = (rows, some e)
    ∧ (DB.Query d ip query args und elapsed).1.2 = some e
    ∧ ((DB.Query d ip query args und elapsed).2.length
        = if gate d.debug d.slow elapsed then 1 else 0)
    ∧ ∀ (undOther : δ → String → List α → ρr × Option ε),
        (DB.Query d ip query args und elapsed).2
          = (DB.Query d ip query args undOther elapsed).2 := by
  refine ⟨h, ?_, emit_length, fun _ => rfl⟩
  simp [DB.Query, h]

/-- C3 witness: a failing underlying query at a concrete input. -/
theorem claim3_error_surfaced_witness :
    (DB.Query (WrapperDB (0 : Nat) false 0) "198.51.100.2" "select x"
        [(2 : Nat)] (fun _ _ _ => ((9 : Nat), some "boom")) 4).1
      = (9, some "boom") :=
  (claim3_error_surfaced (WrapperDB (0 : Nat) false 0) "198.51.100.2"
    "select x" [(2 : Nat)] (fun _ _ _ => ((9 : Nat), some "boom")) 4 9 "boom"
    rfl).1

/-- C4: a `Tx` returned by a successful `DB.Begin` carries by-value copies of
the handle's `debug` and `slow` taken at begin time, and every subsequent
operation on it is gated by those copied values alone (in this state-passing
embedding the handle's later configuration cannot reach the `Tx`, which
stores plain `Bool`/`Duration` values, so a handle whose fields are updated
after `Begin` leaves the transaction's logging behavior unchanged). -/
theorem claim4_begin_copies_config {δ τ ε ρ α : Type} (d : DB δ)
    (und : δ → τ × Option ε) (t : Tx τ)
    (h : (DB.Begin (ε := ε) (α := α) d und).1 = some t) :
    t.debug = d.debug ∧ t.slow = d.slow
    ∧ (∀ ip query (args : List α) (undT : τ → String → List α → ρ)
        (elapsed : Duration),
        (Tx.Exec t ip query args undT elapsed).2.length
          = if gate d.debug d.slow elapsed then 1 else 0)
    ∧ (∀ ip (undC : τ → ρ) (elapsed : Duration),
        (Tx.Commit (α := α) t ip undC elapsed).2.length
          = if gate d.debug d.slow elapsed then 1 else 0) := by
  rcases h' : und d.db with ⟨tx, e⟩
  cases e with
  | some e => simp [DB.Begin, h'] at h
  | none =>
    simp only [DB.Begin, h'] at h
    cases h
    exact ⟨rfl, rfl, fun _ _ _ _ _ => emit_length, fun _ _ _ => emit_length⟩

/-- C4 witness: a concrete successful begin copies `debug = true`, `slow = 7`. -/
theorem claim4_begin_copies_config_witness :
    (⟨(0 : Nat), true, 7⟩ : Tx Nat).debug = (WrapperDB (0 : Nat) true 7).debug :=
  (claim4_begin_copies_config (ρ := Nat) (α := Nat) (WrapperDB (0 : Nat) true 7)
    (fun _ => ((0 : Nat), (none : Option String))) ⟨0, true, 7⟩ rfl).1

/-- C5: `Prepare` on handle and transaction emits no log record on any path;
on an underlying error it returns `(nil, err)` and builds no wrapper, and on
success it returns a `Stmt` wrapper storing the query text and the parent's
`debug`/`slow` configuration. -/
theorem claim5_prepare {δ τ σ ε α : Type} (d : DB δ) (t : Tx τ) (query : String)
    (undD : δ → String → σ × Option ε) (undT : τ → String → σ × Option ε) :
    (DB.Prepare (α := α) d query undD).2.2 = []
    ∧ (Tx.Prepare (α := α) t query undT).2.2 = []
    ∧ (∀ s e, undD d.db query = (s, some e) →
        DB.Prepare (α := α) d query undD = (none, some e, []))
    ∧ (∀ s, undD d.db query = (s, none) →
        DB.Prepare (α := α) d query undD =
          (some { stmt := s, prepare := query, debug := d.debug, slow := d.slow },
           none, []))
    ∧ (∀ s e, undT t.tx query = (s, some e) →
        Tx.Prepare (α := α) t query undT = (none, some e, []))
    ∧ (∀ s, undT t.tx query = (s, none) →
        Tx.Prepare (α := α) t query undT =
          (some { stmt := s, prepare := query, debug := t.debug, slow := t.slow },
           none, [])) := by
  refine ⟨?_, ?_, ?_, ?_, ?_, ?_⟩
  · rcases h : undD d.db query with ⟨s, _ | e⟩ <;> simp [DB.Prepare, h]
  · rcases h : undT t.tx query with ⟨s, _ | e⟩ <;> simp [Tx.Prepare, h]
  · intro s e h; simp [DB.Prepare, h]
  · intro s h; simp [DB.Prepare, h]
  · intro s e h; simp [Tx.Prepare, h]
  · intro s h; simp [Tx.Prepare, h]

/-- C5 witness: a concrete successful prepare builds the statement wrapper
with the handle's configuration and logs nothing. -/
theorem claim5_prepare_witness :
    DB.Prepare (α := Nat) (WrapperDB (0 : Nat) false 9) "insert into t"
        (fun _ _ => ((3 : Nat), (none : Option String)))
      = (some { stmt := 3, prepare := "insert into t", debug := false, slow := 9 },
         none, []) :=
  ((claim5_prepare (τ := Nat) (WrapperDB (0 : Nat) false 9) ⟨0, false, 9⟩
      "insert into t" (fun _ _ => ((3 : Nat), (none : Option String)))
      (fun _ _ => ((3 : Nat), (none : Option String)))).2.2.2.1) 3 rfl

/-- C6: after a successful `Prepare` of `query`, every record logged by the
resulting statement's `Exec`/`Query`/`QueryRow` carries exactly the
prepare-time query text together with the call's own argument list. -/
theorem claim6_stmt_logs_original_query {δ σ ε ρ α : Type} (d : DB δ)
    (query : String) (undP : δ → String → σ × Option ε) (s : Stmt σ)
    (h : (DB.Prepare (α := α) d query undP).1 = some s) :
    s.prepare = query
    ∧ ∀ ip (args : List α) (und : σ → List α → ρ) (elapsed : Duration),
        (∀ r ∈ (Stmt.Exec s ip args und elapsed).2,
          r.sql = some query ∧ r.args = some args)
        ∧ (∀ r ∈ (Stmt.Query s ip args und elapsed).2,
          r.sql = some query ∧ r.args = some args)
        ∧ (∀ r ∈ (Stmt.QueryRow s ip args und elapsed).2,
          r.sql = some query ∧ r.args = some args) := by
  rcases h' : undP d.db query with ⟨st, e⟩
  cases e with
  | some e => simp [DB.Prepare, h'] at h
  | none =>
    simp only [DB.Prepare, h'] at h
    cases h
    refine ⟨rfl, fun ip args und elapsed => ⟨?_, ?_, ?_⟩⟩ <;>
      intro r hr <;> have hrec := mem_emit hr <;> subst hrec <;> exact ⟨rfl, rfl⟩

/-- C6 witness: the statement prepared from `"SELECT 1"` stores that text. -/
theorem claim6_stmt_logs_original_query_witness :
    (⟨(0 : Nat), "SELECT 1", false, 0⟩ : Stmt Nat).prepare = "SELECT 1" :=
  (claim6_stmt_logs_original_query (ρ := Nat) (α := Nat)
    (WrapperDB (0 : Nat) false 0) "SELECT 1"
    (fun _ _ => ((0 : Nat), (none : Option String)))
    ⟨0, "SELECT 1", false, 0⟩ rfl).1

/-- C7: every record emitted by `Tx.Commit` or `Tx.Rollback` carries the
elapsed duration but no query-text field and no argument-list field. -/
theorem claim7_commit_rollback_fields {τ ρ α : Type} (t : Tx τ) (ip : String)
    (undC undR : τ → ρ) (elapsed : Duration) :
    (∀ r ∈ (Tx.Commit (α := α) t ip undC elapsed).2,
      r.useTime = elapsed ∧ r.sql = none ∧ r.args = none)
    ∧ (∀ r ∈ (Tx.Rollback (α := α) t ip undR elapsed).2,
      r.useTime = elapsed ∧ r.sql = none ∧ r.args = none) := by
  refine ⟨fun r hr => ?_, fun r hr => ?_⟩
  · have hrec := mem_emit hr
    subst hrec
    exact ⟨rfl, rfl, rfl⟩
  · have hrec := mem_emit hr
    subst hrec
    exact ⟨rfl, rfl, rfl⟩

/-- C7 witness: the record of a concrete debug-enabled commit. -/
theorem claim7_commit_rollback_fields_witness :
    (LogRecord.mk 5 "198.51.100.9" "syhlion/sqlwrapper" none none
        "tx commit" : LogRecord Nat).useTime = 5
    ∧ (LogRecord.mk 5 "198.51.100.9" "syhlion/sqlwrapper" none none
        "tx commit" : LogRecord Nat).sql = none
    ∧ (LogRecord.mk 5 "198.51.100.9" "syhlion/sqlwrapper" none none
        "tx commit" : LogRecord Nat).args = none :=
  (claim7_commit_rollback_fields (α := Nat) (⟨(0 : Nat), true, 0⟩ : Tx Nat)
    "198.51.100.9" (fun _ => (0 : Nat)) (fun _ => (0 : Nat)) 5).1
    (LogRecord.mk 5 "198.51.100.9" "syhlion/sqlwrapper" none none "tx commit")
    (by decide)

/-- C8: `DB.Close` returns exactly what the underlying `Close` returns,
performs no timing and emits no record; two successive closes each just
delegate to the underlying close (here: two oracle results, the client's
behavior on the first and on the second close), so closing the handle twice
is exactly closing the underlying client twice. -/
theorem claim8_close_delegates {δ ρ α : Type} (d : DB δ)
    (und undAgain : δ → ρ) :
    DB.Close (α := α) d und = (und d.db, [])
    ∧ DB.Close (α := α) d undAgain = (undAgain d.db, []) :=
  ⟨rfl, rfl⟩

/-- C9: `Tx.Stmt` emits no record and performs no timing; the returned
wrapper is the input wrapper with only its underlying-statement field
rebound to the transaction-bound statement, `prepare`/`debug`/`slow`
untouched (the Go code mutates the given wrapper in place and returns the
same pointer; the embedding returns the updated value of that wrapper). -/
theorem claim9_tx_stmt_rebinds {τ σ α : Type} (t : Tx τ) (s : Stmt σ)
    (und : τ → σ → σ) :
    Tx.Stmt (α := α) t s und
      = ({ stmt := und t.tx s.stmt, prepare := s.prepare, debug := s.debug,
           slow := s.slow }, []) :=
  rfl

/-- C10: `DB.Begin` returns `nil` for the transaction exactly when the
underlying begin errored, and a wrapper exactly when it did not; no record
is logged on either path, the error path builds no wrapper, and the success
path builds the configured wrapper. -/
theorem claim10_begin_option {δ τ ε α : Type} (d : DB δ)
    (und : δ → τ × Option ε) :
    ((DB.Begin (α := α) d und).1 = none ↔ (DB.Begin (α := α) d und).2.1 ≠ none)
    ∧ (DB.Begin (α := α) d und).2.2 = []
    ∧ (∀ tx e, und d.db = (tx, some e) →
        DB.Begin (α := α) d und = (none, some e, []))
    ∧ (∀ tx, und d.db = (tx, none) →
        DB.Begin (α := α) d und
          = (some { tx := tx, debug := d.debug, slow := d.slow }, none, [])) := by
  refine ⟨?_, ?_, ?_, ?_⟩
  · rcases h : und d.db with ⟨tx, _ | e⟩ <;> simp [DB.Begin, h]
  · rcases h : und d.db with ⟨tx, _ | e⟩ <;> simp [DB.Begin, h]
  · intro tx e h; simp [DB.Begin, h]
  · intro tx h; simp [DB.Begin, h]

/-- C10 witness: a concrete failing begin yields `(nil, error)` and no log. -/
theorem claim10_begin_option_witness :
    DB.Begin (α := Nat) (WrapperDB (0 : Nat) false 2)
        (fun _ => ((0 : Nat), some "connection down"))
      = (none, some "connection down", []) :=
  ((claim10_begin_option (α := Nat) (WrapperDB (0 : Nat) false 2)
      (fun _ => ((0 : Nat), some "connection down"))).2.2.1) 0
    "connection down" rfl

end Sqlwrapper
